import Mathlib

/-!
Verification development for the invoice_data_extraction repository.

Shallow embedding of the three-stage core: field extraction
(src/field_extraction.py), line-item extraction (src/line_item_extractor.py)
and the verification engine (src/verification_engine.py; the same
`verify_calculations` / `process_verification` code is duplicated verbatim in
src/line_item_extractor.py, so one embedding covers both copies).

Numeric model: Python floats are modelled as exact rationals (ℚ).  Python's
`round(x, n)` is modelled as decimal round-half-even to `n` places; binary
floating-point representation error is outside the model, and the concrete
inputs used in counterexamples and witnesses are chosen away from rounding
ties so that the rational model and CPython agree on them.  `float("inf")`,
`float("nan")` and underscore digit separators are outside the rational
model; every string used in a theorem below is either a plain decimal
numeral (where CPython's float() and the model agree) or a string rejected
by both.
-/

namespace InvoiceExtraction

/-- Floor of a rational, computed explicitly by floor division of the
numerator by the denominator. -/
def qfloor (q : ℚ) : ℤ := Int.fdiv q.num (q.den : ℤ)

/-- Round a rational to the nearest integer, ties to even: the rounding mode
of Python's builtin `round`. -/
def roundHalfEven (q : ℚ) : ℤ :=
  let f := qfloor q
  let frac := q - (f : ℚ)
  if frac < 1/2 then f
  else if 1/2 < frac then f + 1
  else if f % 2 = 0 then f else f + 1

/-- Model of Python's `round(x, n)` for `n ≥ 0` decimal places (decimal
round-half-even, see the module docstring for the float caveat). -/
def pyRound (q : ℚ) (n : ℕ) : ℚ :=
  ((roundHalfEven (q * (10 : ℚ) ^ n) : ℤ) : ℚ) / (10 : ℚ) ^ n

/-- The whitespace characters stripped by Python's `float()` and `str.strip()`
(ASCII fragment of Python's definition). -/
def isPyWS (c : Char) : Bool :=
  c == ' ' || c == '\t' || c == '\n' || c == '\r' || c == '\x0b' || c == '\x0c'

/-- Numeric value of a list of ASCII digits. -/
def natVal (ds : List Char) : ℕ :=
  ds.foldl (fun a c => 10 * a + (c.toNat - 48)) 0

/-- Ten to an integer power, as a rational. -/
def powTen (e : ℤ) : ℚ :=
  if 0 ≤ e then (10 : ℚ) ^ e.toNat else ((10 : ℚ) ^ (-e).toNat)⁻¹

/-- Parse the optional exponent suffix of a Python float literal:
either nothing, or `e`/`E`, an optional sign and a nonempty digit string,
consuming the whole input. -/
def parseExpPart (cs : List Char) : Option ℤ :=
  match cs with
  | [] => some 0
  | 'e' :: rest | 'E' :: rest =>
    let signed : ℤ × List Char :=
      match rest with
      | '+' :: r => (1, r)
      | '-' :: r => (-1, r)
      | r => (1, r)
    if signed.2 ≠ [] ∧ signed.2.all Char.isDigit then
      some (signed.1 * (natVal signed.2 : ℤ))
    else none
  | _ => none

/-- Parse the unsigned body of a Python float literal:
`digits [. digits] [exp]` or `. digits [exp]`, consuming the whole input. -/
def parseBody (cs : List Char) : Option ℚ :=
  let ip := cs.takeWhile Char.isDigit
  let r1 := cs.dropWhile Char.isDigit
  match r1 with
  | '.' :: r2 =>
    let fp := r2.takeWhile Char.isDigit
    let r3 := r2.dropWhile Char.isDigit
    if ip = [] ∧ fp = [] then none
    else
      (parseExpPart r3).map (fun e =>
        ((natVal ip : ℚ) + (natVal fp : ℚ) / (10 : ℚ) ^ fp.length) * powTen e)
  | _ =>
    if ip = [] then none
    else (parseExpPart r1).map (fun e => (natVal ip : ℚ) * powTen e)

/-- Model of Python's `float(s)` on strings: strip surrounding whitespace,
parse an optional sign and a decimal literal.  `none` models a raised
ValueError. -/
def pyFloat? (s : String) : Option ℚ :=
  let cs := ((s.data.dropWhile isPyWS).reverse.dropWhile isPyWS).reverse
  match cs with
  | '+' :: r => parseBody r
  | '-' :: r => (parseBody r).map Neg.neg
  | r => parseBody r

/-- A JSON-shaped Python value as found in the loaded `*_fields.json` /
`*_lineitems.json` dictionaries: null, boolean, number or string. -/
inductive PyVal where
  | jnull : PyVal
  | jbool (b : Bool) : PyVal
  | jnum (q : ℚ) : PyVal
  | jstr (s : String) : PyVal
deriving DecidableEq

/-- Model of Python's `float(v)` on such a value; an `Except.error` models
the raised TypeError / ValueError, carrying the exception text. -/
def excFloat (v : PyVal) : Except String ℚ :=
  match v with
  | .jnull => .error "float() argument must be a string or a real number, not NoneType"
  | .jbool b => .ok (if b then 1 else 0)
  | .jnum q => .ok q
  | .jstr s =>
    match pyFloat? s with
    | some q => .ok q
    | none => .error ("could not convert string to float: " ++ s)

/-- One entry of the fields dictionary: the per-field sub-dictionary.
`value? = none` models a dictionary without a `value` key (so that
`entry.get("value", 0)` yields the default `0`). -/
structure FieldEntry where
  value? : Option PyVal
deriving DecidableEq

/-- The fields dictionary loaded from `P_fields.json`: an association list
from field name to entry; a name absent from the list models a missing key
(so that `fields.get(name, {})` yields `{}`). -/
abbrev FieldMap : Type := List (String × FieldEntry)

/-- One entry of the loaded line-items list; only its `row_total` key is
consulted by `verify_calculations`.  `row_total? = none` models a
dictionary without a `row_total` key (default `0`). -/
structure RawItem where
  row_total? : Option PyVal
deriving DecidableEq

/-- Model of `float(fields.get(name, {}).get("value", 0))`:
a missing field or a missing `value` key silently defaults to `0`;
otherwise the stored value is coerced. -/
def coerceFieldE (fields : FieldMap) (name : String) : Except String ℚ :=
  match List.lookup name fields with
  | none => .ok 0
  | some entry =>
    match entry.value? with
    | none => .ok 0
    | some v => excFloat v

/-- Model of `float(item.get("row_total", 0))`. -/
def rowTotalE (item : RawItem) : Except String ℚ :=
  match item.row_total? with
  | none => .ok 0
  | some v => excFloat v

/-- Model of `sum(float(item.get("row_total", 0)) for item in line_items)`:
left fold starting at 0, first exception aborts. -/
def sumRowTotalsE (items : List RawItem) : Except String ℚ :=
  items.foldlM (fun acc it => (rowTotalE it).map (fun q => acc + q)) 0

/-- The `try` block of `verify_calculations`: coerce the line-item totals and
the four numeric fields in source order; the first exception aborts the
whole block. -/
def extractValuesE (fields : FieldMap) (line_items : List RawItem) :
    Except String (ℚ × ℚ × ℚ × ℚ × ℚ) := do
  let subtotal ← sumRowTotalsE line_items
  let extracted_subtotal ← coerceFieldE fields "subtotal"
  let gst ← coerceFieldE fields "gst_amount"
  let discount ← coerceFieldE fields "discount"
  let total ← coerceFieldE fields "total"
  pure (subtotal, extracted_subtotal, gst, discount, total)

/-- The returned report dictionary.  Keys absent from the returned Python
dict are modelled as `none` (the failure record carries no `extracted_*`
keys and a `none` error margin; the success record carries no `error`
key). -/
structure Report where
  verified : Bool
  error : Option String
  confidence : ℚ
  error_margin : Option ℚ
  extracted_subtotal : Option ℚ
  computed_subtotal : Option ℚ
  extracted_total : Option ℚ
  computed_total : Option ℚ
  gst : Option ℚ
  discount : Option ℚ
deriving DecidableEq

/-- Model of `verify_calculations(fields, line_items)`
(src/verification_engine.py lines 16-48; identical duplicate in
src/line_item_extractor.py lines 24-56). -/
def verify_calculations (fields : FieldMap) (line_items : List RawItem) :
    Report :=
  match extractValuesE fields line_items with
  | .error e =>
    { verified := false
      error := some ("Value extraction error: " ++ e)
      confidence := 0
      error_margin := none
      extracted_subtotal := none
      computed_subtotal := none
      extracted_total := none
      computed_total := none
      gst := none
      discount := none }
  | .ok (subtotal, extracted_subtotal, gst, discount, total) =>
    let computed_total := subtotal + gst - discount
    let error_margin := |computed_total - total|
    let verified := decide (error_margin < 1)
    let confidence := max 0 (1 - error_margin / (total + 1/100000))
    { verified := verified
      error := none
      confidence := pyRound confidence 3
      error_margin := some (pyRound error_margin 2)
      extracted_subtotal := some extracted_subtotal
      computed_subtotal := some (pyRound subtotal 2)
      extracted_total := some total
      computed_total := some (pyRound computed_total 2)
      gst := some gst
      discount := some discount }

/-- File-system model for the verification driver `process_verification`:
per prefix, `fieldsFile` is the parsed content of `P_fields.json` when that
file exists (`none` when it does not), and likewise `lineitemsFile` for
`P_lineitems.json`. -/
structure DriverFS where
  fieldsFile : Option FieldMap
  lineitemsFile : Option (List RawItem)

/-- Model of `process_verification(prefix)` (src/verification_engine.py
lines 50-65; identical duplicate in src/line_item_extractor.py lines
86-101): when both input files exist, a report is computed and written
(`some report`); when either is missing the function logs and returns
without writing anything (`none`). -/
def process_verification (fs : DriverFS) : Option Report :=
  match fs.fieldsFile, fs.lineitemsFile with
  | some fields, some items => some (verify_calculations fields items)
  | _, _ => none

/-! ### Line-item extraction (src/line_item_extractor.py lines 58-84) -/

/-- One OCR word record; only its `text` key is consulted by the line-item
extractor. -/
structure OCRWord where
  text : String
deriving DecidableEq

/-- ASCII model of Python's `str.isdigit()`: nonempty and all digit
characters. -/
def pyStrIsDigit (s : String) : Bool :=
  !s.data.isEmpty && s.data.all Char.isDigit

/-- Model of `any(c.isdigit() for c in text)`. -/
def hasDigit (s : String) : Bool := s.data.any Char.isDigit

/-- Model of `text.replace(",", "")`. -/
def stripCommas (s : String) : String := ⟨s.data.filter (fun c => c ≠ ',')⟩

/-- One reconstructed line item. -/
structure LineItem where
  description : String
  qty : ℚ
  unit_price : ℚ
  row_total : ℚ
  valid : Bool
deriving DecidableEq

/-- The lookahead context of a candidate row start: `words[i:i+8]`, the
candidate word itself plus the next 7 words. -/
def contextAt (words : List OCRWord) (i : ℕ) : List OCRWord :=
  (words.drop i).take 8

/-- The numeric tokens of a context window: the sub-sequence of words whose
text contains at least one digit. -/
def numericTokens (ctx : List OCRWord) : List OCRWord :=
  ctx.filter (fun w => hasDigit w.text)

/-- The body of one loop iteration of `extract_line_items_from_ocr`: the
candidate row produced at position `i`, or `none` when the candidate is
discarded.  A discarded candidate arises when the word is not purely
numeric, when fewer than 3 numeric tokens are in the window, or when the
`try` block raises: an IndexError on `numbers[3]` (exactly 3 numeric
tokens) or a ValueError from a failed `float(...)` parse. -/
def candidateRow (words : List OCRWord) (i : ℕ) : Option LineItem :=
  match words[i]? with
  | none => none
  | some w =>
    if pyStrIsDigit w.text then
      let context := contextAt words i
      let numbers := numericTokens context
      if 3 ≤ numbers.length then
        let description :=
          String.intercalate " " (((context.drop 1).take 2).map OCRWord.text)
        match numbers[1]?, numbers[2]?, numbers[3]? with
        | some n1, some n2, some n3 =>
          match pyFloat? (stripCommas n1.text), pyFloat? (stripCommas n2.text),
              pyFloat? (stripCommas n3.text) with
          | some qty, some unit_price, some row_total =>
            some { description := description
                   qty := qty
                   unit_price := unit_price
                   row_total := row_total
                   valid := decide (|unit_price * qty - row_total| < 2) }
          | _, _, _ => none
        | _, _, _ => none
      else none
    else none

/-- The scan loop: starting at position `i` with `fuel` positions left to
visit, accumulate accepted rows in order. -/
def extractFromAux (words : List OCRWord) : ℕ → ℕ → List LineItem
  | 0, _ => []
  | fuel + 1, i =>
    match candidateRow words i with
    | some item => item :: extractFromAux words fuel (i + 1)
    | none => extractFromAux words fuel (i + 1)

/-- Model of `extract_line_items_from_ocr(words)`: scan every position of
the word sequence left to right (`for i, word in enumerate(words)`). -/
def extract_line_items_from_ocr (words : List OCRWord) : List LineItem :=
  extractFromAux words words.length 0

/-! ### Field extraction (src/field_extraction.py)

The four header-field regexes use only literals, character classes and
bounded/greedy repetition of a single character class, with exactly one
capture group placed last.  They are embedded as explicit pattern ASTs and
run by a backtracking matcher with Python `re.search` semantics: leftmost
start position first, and at each start the greedy backtracking order
(longest repetition first). -/

/-- One item of a compiled pattern: a case-insensitive literal character, or
a greedy repetition of a character class between `lo` and `hi` occurrences
(`hi = none` meaning unbounded, as in `*` / `+`). -/
inductive REItem where
  | lit (c : Char) : REItem
  | cls (p : Char → Bool) (lo : ℕ) (hi : Option ℕ) : REItem

/-- Length of the maximal run of class characters at the head of the
input. -/
def runLen (p : Char → Bool) (cs : List Char) : ℕ :=
  (cs.takeWhile p).length

/-- The repetition counts a greedy quantifier tries, in order:
`hi, hi-1, ..., lo` clipped to the available run. -/
def countsDesc (lo m : ℕ) : List ℕ :=
  (List.range' lo (m + 1 - lo)).reverse

/-- All suffixes remaining after the item sequence matches a prefix of the
input, in backtracking priority order (the first element is the match the
engine commits to). -/
def matchesOf : List REItem → List Char → List (List Char)
  | [], cs => [cs]
  | .lit _ :: _, [] => []
  | .lit c :: rest, c2 :: cs2 =>
    if c.toLower = c2.toLower then matchesOf rest cs2 else []
  | .cls p lo hi :: rest, cs =>
    let m := min (runLen p cs) (hi.getD cs.length)
    (countsDesc lo m).flatMap (fun k => matchesOf rest (cs.drop k))

/-- A compiled pattern: the items before the (single, final) capture group,
and the items inside the group. -/
structure REPattern where
  pre : List REItem
  grp : List REItem

/-- Try to match the pattern at one start position; on success return the
characters captured by the group, honouring backtracking priority across
the boundary between `pre` and the group. -/
def groupAt (pat : REPattern) (cs : List Char) : Option (List Char) :=
  (matchesOf pat.pre cs).findSome? (fun rem1 =>
    match matchesOf pat.grp rem1 with
    | [] => none
    | rem2 :: _ => some (rem1.take (rem1.length - rem2.length)))

/-- Model of `re.search(pattern, text, re.IGNORECASE).group(1)`: try start
positions left to right, `none` when no position matches. -/
def reSearch (pat : REPattern) (text : String) : Option String :=
  (text.data.tails.findSome? (groupAt pat)).map (fun l => String.mk l)

/-- Model of Python's `str.strip()` (ASCII whitespace fragment). -/
def pyStrip (s : String) : String :=
  ⟨((s.data.dropWhile isPyWS).reverse.dropWhile isPyWS).reverse⟩

/-- The class `[A-Za-z0-9\-]`. -/
def isAlnumDash (c : Char) : Bool := c.isAlpha || c.isDigit || c == '-'

/-- The class `[:\-]`. -/
def isColonDash (c : Char) : Bool := c == ':' || c == '-'

/-- The literal class `\.`. -/
def isDotC (c : Char) : Bool := c == '.'

/-- The date-separator class: a dash or a forward slash. -/
def isDateSep (c : Char) : Bool := c == '-' || c == '/'

/-- The class `[0-9A-Z]` under `re.IGNORECASE` (so lowercase letters match
as well). -/
def isGstChar (c : Char) : Bool := c.isDigit || c.isAlpha

/-- A sequence of literal items for a literal fragment of a pattern. -/
def litStr (s : String) : List REItem := s.data.map REItem.lit

/-- The item `\s*`. -/
def ws0 : REItem := .cls isPyWS 0 none

/-- An optional single class character (`?`). -/
def zeroOrOne (p : Char → Bool) : REItem := .cls p 0 (some 1)

/-- Compiled `r"Invoice\s*No\.?\s*[:\-]?\s*([A-Za-z0-9\-]+)"`. -/
def invoiceNumberPat : REPattern :=
  { pre := litStr "Invoice" ++ [ws0] ++ litStr "No" ++
      [zeroOrOne isDotC, ws0, zeroOrOne isColonDash, ws0]
    grp := [.cls isAlnumDash 1 none] }

/-- Compiled date pattern `Date\s*[:\-]?\s*(...)` whose group is
`[0-9]{2,4}` sep `[0-9]{1,2}` sep `[0-9]{1,4}`, sep being the
dash-or-slash class. -/
def datePat : REPattern :=
  { pre := litStr "Date" ++ [ws0, zeroOrOne isColonDash, ws0]
    grp := [.cls Char.isDigit 2 (some 4), .cls isDateSep 1 (some 1),
            .cls Char.isDigit 1 (some 2), .cls isDateSep 1 (some 1),
            .cls Char.isDigit 1 (some 4)] }

/-- Compiled `r"GSTIN\s*[:\-]?\s*([0-9A-Z]{15})"`. -/
def gstNumberPat : REPattern :=
  { pre := litStr "GSTIN" ++ [ws0, zeroOrOne isColonDash, ws0]
    grp := [.cls isGstChar 15 (some 15)] }

/-- Compiled `r"PO\s*No\.?\s*[:\-]?\s*([A-Za-z0-9\-]+)"`. -/
def poNumberPat : REPattern :=
  { pre := litStr "PO" ++ [ws0] ++ litStr "No" ++
      [zeroOrOne isDotC, ws0, zeroOrOne isColonDash, ws0]
    grp := [.cls isAlnumDash 1 none] }

/-- One extracted header field value `{value, confidence, present}`. -/
structure FieldValue where
  value : Option String
  confidence : ℚ
  present : Bool
deriving DecidableEq

/-- Model of `extract_field(patterns, text, field_name)`: try the patterns
in list order; on the first match return capture group 1 stripped, with
confidence 0.95 and `present = True`; otherwise the absent value. -/
def extract_field (patterns : List REPattern) (text : String) : FieldValue :=
  match patterns with
  | [] => { value := none, confidence := 0, present := false }
  | p :: rest =>
    match reSearch p text with
    | some g => { value := some (pyStrip g), confidence := 95/100, present := true }
    | none => extract_field rest text

/-- The four regex header fields returned by `extract_fields_from_text`. -/
structure RegexFields where
  invoice_number : FieldValue
  date : FieldValue
  gst_number : FieldValue
  po_number : FieldValue
deriving DecidableEq

/-- Model of `extract_fields_from_text(text)`: each field has a one-pattern
list, matched by `extract_field`. -/
def extract_fields_from_text (text : String) : RegexFields :=
  { invoice_number := extract_field [invoiceNumberPat] text
    date := extract_field [datePat] text
    gst_number := extract_field [gstNumberPat] text
    po_number := extract_field [poNumberPat] text }

/-! ### Entity-based bill/ship fields (src/field_extraction.py lines 40-55)

The spaCy pipeline is the external EntityTagger collaborator: it turns the
document text into a sequence of labelled spans.  The code below `doc =
nlp(text)` is embedded as a function of that span sequence. -/

/-- One tagged entity span as produced by the external EntityTagger:
its text and its label string (`"ORG"`, `"PERSON"`, `"GPE"`, `"LOC"`, ...). -/
structure EntSpan where
  text : String
  label : String
deriving DecidableEq

/-- The organisation/person span texts, in order of appearance, no
deduplication. -/
def orgTexts (spans : List EntSpan) : List String :=
  (spans.filter (fun e => e.label == "ORG" || e.label == "PERSON")).map EntSpan.text

/-- The location span texts, in order of appearance, no deduplication. -/
def locTexts (spans : List EntSpan) : List String :=
  (spans.filter (fun e => e.label == "GPE" || e.label == "LOC")).map EntSpan.text

/-- Python truthiness of an optional string (`bool(x)` where `x` is a string
or `None`). -/
def pyTruthyStr : Option String → Bool
  | none => false
  | some s => s ≠ ""

/-- One bill/ship field value as built by the dictionary literal in
`extract_bill_ship_to`: `{"value": v, "confidence": c if v else 0.0,
"present": bool(v)}`. -/
def mkEntField (v : Option String) (c : ℚ) : FieldValue :=
  { value := v
    confidence := if pyTruthyStr v then c else 0
    present := pyTruthyStr v }

/-- The four entity-derived fields. -/
structure EntityFields where
  bill_to : FieldValue
  ship_to : FieldValue
  bill_to_address : FieldValue
  ship_to_address : FieldValue
deriving DecidableEq

/-- Model of `extract_bill_ship_to(text, nlp)` as a function of the tagged
spans: first/second organisation for bill_to/ship_to (confidence 0.8),
first/second location for the two addresses (confidence 0.7). -/
def extract_bill_ship_to (spans : List EntSpan) : EntityFields :=
  let orgs := orgTexts spans
  let locs := locTexts spans
  { bill_to := mkEntField orgs.head? (8/10)
    ship_to := mkEntField orgs[1]? (8/10)
    bill_to_address := mkEntField locs.head? (7/10)
    ship_to_address := mkEntField locs[1]? (7/10) }

/-- All eight FieldValue entries of the FieldSet built by
`process_ocr_pages` for one document: the four regex fields merged with the
four entity fields (`fields.update(bill_ship)`). -/
def allFieldValues (text : String) (spans : List EntSpan) : List FieldValue :=
  let r := extract_fields_from_text text
  let e := extract_bill_ship_to spans
  [r.invoice_number, r.date, r.gst_number, r.po_number,
   e.bill_to, e.ship_to, e.bill_to_address, e.ship_to_address]

/-! ### Helper lemmas about the verification engine -/

/-- The failure report returned when the `try` block raises with message
`e`. -/
def failureReport (e : String) : Report :=
  { verified := false
    error := some ("Value extraction error: " ++ e)
    confidence := 0
    error_margin := none
    extracted_subtotal := none
    computed_subtotal := none
    extracted_total := none
    computed_total := none
    gst := none
    discount := none }

lemma qfloor_eq_floor (q : ℚ) : qfloor q = ⌊q⌋ := by
  rw [Rat.floor_def, qfloor, Int.fdiv_eq_ediv _ (by positivity)]

lemma roundHalfEven_intCast (m : ℤ) : roundHalfEven ((m : ℤ) : ℚ) = m := by
  simp [roundHalfEven, qfloor_eq_floor]

lemma pyRound_intCast (m : ℤ) (k : ℕ) : pyRound ((m : ℤ) : ℚ) k = (m : ℚ) := by
  unfold pyRound
  have h : ((m : ℚ) * (10 : ℚ) ^ k) = ((m * 10 ^ k : ℤ) : ℚ) := by push_cast; ring
  rw [h, roundHalfEven_intCast]
  push_cast
  rw [mul_div_assoc, div_self (by positivity), mul_one]

lemma pyRound_zero (k : ℕ) : pyRound 0 k = 0 := by
  simpa using pyRound_intCast 0 k

lemma pyRound_one (k : ℕ) : pyRound 1 k = 1 := by
  simpa using pyRound_intCast 1 k

/-- Rounding 0.004 to two decimal places yields 0. -/
lemma pyRound_tiny : pyRound (1/250 : ℚ) 2 = 0 := by
  unfold pyRound
  have h1 : (1/250 : ℚ) * (10 : ℚ) ^ 2 = 2/5 := by norm_num
  rw [h1]
  have h2 : roundHalfEven (2/5 : ℚ) = 0 := by
    unfold roundHalfEven
    rw [qfloor_eq_floor]
    have hf : ⌊(2/5 : ℚ)⌋ = 0 := by norm_num [Int.floor_eq_iff]
    rw [hf]
    norm_num
  rw [h2]
  norm_num

lemma errMsg_ne_empty (e : String) : "Value extraction error: " ++ e ≠ "" := by
  intro h
  have h2 := congrArg String.data h
  rw [String.data_append] at h2
  simp at h2

lemma verify_calculations_of_error {fields : FieldMap} {items : List RawItem}
    {e : String} (h : extractValuesE fields items = .error e) :
    verify_calculations fields items = failureReport e := by
  simp [verify_calculations, h, failureReport]

lemma verify_calculations_of_ok {fields : FieldMap} {items : List RawItem}
    {qs qe qg qd qt : ℚ}
    (h : extractValuesE fields items = .ok (qs, qe, qg, qd, qt)) :
    verify_calculations fields items =
      { verified := decide (|qs + qg - qd - qt| < 1)
        error := none
        confidence := pyRound (max 0 (1 - |qs + qg - qd - qt| / (qt + 1/100000))) 3
        error_margin := some (pyRound |qs + qg - qd - qt| 2)
        extracted_subtotal := some qe
        computed_subtotal := some (pyRound qs 2)
        extracted_total := some qt
        computed_total := some (pyRound (qs + qg - qd) 2)
        gst := some qg
        discount := some qd } := by
  simp [verify_calculations, h]

lemma extractValues_ok_of_parts {fields : FieldMap} {items : List RawItem}
    {qs qe qg qd qt : ℚ}
    (h0 : sumRowTotalsE items = .ok qs)
    (h1 : coerceFieldE fields "subtotal" = .ok qe)
    (h2 : coerceFieldE fields "gst_amount" = .ok qg)
    (h3 : coerceFieldE fields "discount" = .ok qd)
    (h4 : coerceFieldE fields "total" = .ok qt) :
    extractValuesE fields items = .ok (qs, qe, qg, qd, qt) := by
  simp [extractValuesE, h0, h1, h2, h3, h4, Bind.bind, Except.bind, Pure.pure,
    Except.pure]

lemma extractValues_error_of_field {fields : FieldMap} {items : List RawItem}
    {name : String}
    (hmem : name = "subtotal" ∨ name = "gst_amount" ∨ name = "discount" ∨
      name = "total")
    (hf : ∃ e0, coerceFieldE fields name = .error e0) :
    ∃ e, extractValuesE fields items = .error e := by
  obtain ⟨e0, hf⟩ := hf
  cases hs : sumRowTotalsE items with
  | error e => exact ⟨e, by simp [extractValuesE, hs, Bind.bind, Except.bind]⟩
  | ok q0 =>
    rcases hmem with rfl | rfl | rfl | rfl
    · exact ⟨e0, by simp [extractValuesE, hs, hf, Bind.bind, Except.bind]⟩
    · cases h1 : coerceFieldE fields "subtotal" with
      | error e1 =>
        exact ⟨e1, by simp [extractValuesE, hs, h1, Bind.bind, Except.bind]⟩
      | ok q1 =>
        exact ⟨e0, by simp [extractValuesE, hs, h1, hf, Bind.bind, Except.bind]⟩
    · cases h1 : coerceFieldE fields "subtotal" with
      | error e1 =>
        exact ⟨e1, by simp [extractValuesE, hs, h1, Bind.bind, Except.bind]⟩
      | ok q1 =>
        cases h2 : coerceFieldE fields "gst_amount" with
        | error e2 =>
          exact ⟨e2, by simp [extractValuesE, hs, h1, h2, Bind.bind, Except.bind]⟩
        | ok q2 =>
          exact ⟨e0, by
            simp [extractValuesE, hs, h1, h2, hf, Bind.bind, Except.bind]⟩
    · cases h1 : coerceFieldE fields "subtotal" with
      | error e1 =>
        exact ⟨e1, by simp [extractValuesE, hs, h1, Bind.bind, Except.bind]⟩
      | ok q1 =>
        cases h2 : coerceFieldE fields "gst_amount" with
        | error e2 =>
          exact ⟨e2, by simp [extractValuesE, hs, h1, h2, Bind.bind, Except.bind]⟩
        | ok q2 =>
          cases h3 : coerceFieldE fields "discount" with
          | error e3 =>
            exact ⟨e3, by
              simp [extractValuesE, hs, h1, h2, h3, Bind.bind, Except.bind]⟩
          | ok q3 =>
            exact ⟨e0, by
              simp [extractValuesE, hs, h1, h2, h3, hf, Bind.bind, Except.bind]⟩

/-- Summing line items whose `row_total` values are plain numbers never
raises and yields the left-to-right sum. -/
lemma sumRowTotals_of_nums (acc : ℚ) (qs : List ℚ) :
    (qs.map (fun q => RawItem.mk (some (.jnum q)))).foldlM
      (fun acc it => (rowTotalE it).map (fun q => acc + q)) acc =
        .ok (qs.foldl (fun a q => a + q) acc) := by
  induction qs generalizing acc with
  | nil => rfl
  | cons q rest ih =>
    simp only [List.map_cons, List.foldlM, List.foldl]
    exact ih (acc + q)

/-! ### Concrete inputs used by counterexamples and witnesses -/

/-- A fields dictionary whose `subtotal` key is entirely missing while the
other three numeric fields are plain numbers. -/
def fieldsNoSubtotalKey : FieldMap :=
  [("gst_amount", ⟨some (.jnum 5)⟩), ("discount", ⟨some (.jnum 0)⟩),
   ("total", ⟨some (.jnum 5)⟩)]

/-- A fields dictionary whose `total` value is the non-numeric string
`N/A`. -/
def fieldsBadTotal : FieldMap :=
  [("subtotal", ⟨some (.jnum 300)⟩), ("gst_amount", ⟨some (.jnum 54)⟩),
   ("discount", ⟨some (.jnum 0)⟩), ("total", ⟨some (.jstr "N/A")⟩)]

/-- All four numeric fields present with value 0. -/
def fieldsAllZero : FieldMap :=
  [("subtotal", ⟨some (.jnum 0)⟩), ("gst_amount", ⟨some (.jnum 0)⟩),
   ("discount", ⟨some (.jnum 0)⟩), ("total", ⟨some (.jnum 0)⟩)]

/-- The spec's worked verification example: fields `subtotal=300`,
`gst_amount=54`, `discount=0`, `total=354`. -/
def fields354 : FieldMap :=
  [("subtotal", ⟨some (.jnum 300)⟩), ("gst_amount", ⟨some (.jnum 54)⟩),
   ("discount", ⟨some (.jnum 0)⟩), ("total", ⟨some (.jnum 354)⟩)]

/-- Two line items whose row totals sum to 300. -/
def items300 : List RawItem :=
  [⟨some (.jnum 120)⟩, ⟨some (.jnum 180)⟩]

/-- A single line item whose row total 0.004 is not representable in two
decimal places. -/
def itemsTiny : List RawItem := [⟨some (.jnum (1/250))⟩]

/-! ### C1 -/

/-- C1 (counterexample): the claim states that a FieldSet in which one of
the four numeric fields is missing makes `verify_calculations` return the
failure record (`verified=false`, error message, `confidence=0`,
`error_margin=null`).  On the dictionary with no `subtotal` key at all the
code instead defaults the missing field to 0 and returns a success record:
`verified=true`, no error, nonzero confidence and a numeric error margin. -/
theorem C1_counterexample :
    List.lookup "subtotal" fieldsNoSubtotalKey = none ∧
    (verify_calculations fieldsNoSubtotalKey []).verified = true ∧
    (verify_calculations fieldsNoSubtotalKey []).error = none ∧
    (verify_calculations fieldsNoSubtotalKey []).confidence ≠ 0 ∧
    (verify_calculations fieldsNoSubtotalKey []).error_margin = some 0 := by
  have h : verify_calculations fieldsNoSubtotalKey [] =
      { verified := decide (|(0 : ℚ) + 5 - 0 - 5| < 1)
        error := none
        confidence :=
          pyRound (max 0 (1 - |(0 : ℚ) + 5 - 0 - 5| / (5 + 1/100000))) 3
        error_margin := some (pyRound |(0 : ℚ) + 5 - 0 - 5| 2)
        extracted_subtotal := some 0
        computed_subtotal := some (pyRound 0 2)
        extracted_total := some 5
        computed_total := some (pyRound ((0 : ℚ) + 5 - 0) 2)
        gst := some 5
        discount := some 0 } :=
    verify_calculations_of_ok (extractValues_ok_of_parts rfl rfl rfl rfl rfl)
  have hm : |(0 : ℚ) + 5 - 0 - 5| = 0 := by norm_num
  have hc : max (0 : ℚ) (1 - |(0 : ℚ) + 5 - 0 - 5| / (5 + 1/100000)) = 1 := by
    norm_num
  refine ⟨rfl, ?_, ?_, ?_, ?_⟩
  · rw [h]
    show decide (|(0 : ℚ) + 5 - 0 - 5| < 1) = true
    rw [hm]
    rfl
  · rw [h]
  · rw [h]
    show pyRound (max 0 (1 - |(0 : ℚ) + 5 - 0 - 5| / (5 + 1/100000))) 3 ≠ 0
    rw [hc, pyRound_one]
    norm_num
  · rw [h]
    show some (pyRound |(0 : ℚ) + 5 - 0 - 5| 2) = some 0
    rw [hm, pyRound_zero]

/-- C1 (amended): whenever one of the fields `subtotal`, `gst_amount`,
`discount`, `total` is present with a value that is null or a non-numeric
string, `verify_calculations` returns the failure record: `verified=false`,
a non-empty human-readable error message, `confidence=0` and
`error_margin=null`, for every line-item sequence.  (A field whose key or
`value` key is missing altogether instead silently defaults to 0 and does
not by itself produce the failure record.) -/
theorem C1_failure_record (fields : FieldMap) (items : List RawItem)
    (name : String) (entry : FieldEntry) (v : PyVal)
    (hname : name = "subtotal" ∨ name = "gst_amount" ∨ name = "discount" ∨
      name = "total")
    (hlook : List.lookup name fields = some entry)
    (hval : entry.value? = some v)
    (hbad : v = PyVal.jnull ∨ ∃ s, v = PyVal.jstr s ∧ pyFloat? s = none) :
    (verify_calculations fields items).verified = false ∧
    (∃ m, (verify_calculations fields items).error = some m ∧ m ≠ "") ∧
    (verify_calculations fields items).confidence = 0 ∧
    (verify_calculations fields items).error_margin = none := by
  have hexc : ∃ e0, excFloat v = .error e0 := by
    rcases hbad with rfl | ⟨s, rfl, hs⟩
    · exact ⟨_, rfl⟩
    · exact ⟨"could not convert string to float: " ++ s, by simp [excFloat, hs]⟩
  obtain ⟨e0, hexc⟩ := hexc
  have hcf : ∃ e0, coerceFieldE fields name = .error e0 :=
    ⟨e0, by simp [coerceFieldE, hlook, hval, hexc]⟩
  obtain ⟨e, he⟩ := @extractValues_error_of_field fields items name hname hcf
  rw [verify_calculations_of_error he]
  exact ⟨rfl, ⟨_, rfl, errMsg_ne_empty e⟩, rfl, rfl⟩

/-- C1 (witness): with `total = "N/A"` the failure record is returned. -/
theorem C1_witness :
    (verify_calculations fieldsBadTotal []).verified = false ∧
    (∃ m, (verify_calculations fieldsBadTotal []).error = some m ∧ m ≠ "") ∧
    (verify_calculations fieldsBadTotal []).confidence = 0 ∧
    (verify_calculations fieldsBadTotal []).error_margin = none :=
  C1_failure_record fieldsBadTotal [] "total" ⟨some (.jstr "N/A")⟩
    (.jstr "N/A") (by simp) rfl rfl (Or.inr ⟨"N/A", rfl, rfl⟩)

/-! ### C2 -/

/-- C2 (counterexample): the claim states that the success record's
`computed_subtotal` equals the sum of the line items' `row_total` and that
`error_margin` equals `|computed_total - extracted_total|`.  With a single
line item of row total 0.004 and all fields 0, the sum is 0.004 but the
record reports `computed_subtotal = 0.0` and `error_margin = 0.0`, because
the code rounds both to two decimal places before returning them. -/
theorem C2_counterexample :
    sumRowTotalsE itemsTiny = .ok (1/250) ∧
    (verify_calculations fieldsAllZero itemsTiny).computed_subtotal =
      some 0 ∧
    (verify_calculations fieldsAllZero itemsTiny).error_margin = some 0 ∧
    (1/250 : ℚ) ≠ 0 := by
  have h0 : sumRowTotalsE itemsTiny = .ok (0 + 1/250) := rfl
  have h : verify_calculations fieldsAllZero itemsTiny =
      { verified := decide (|(0 : ℚ) + 1/250 + 0 - 0 - 0| < 1)
        error := none
        confidence :=
          pyRound
            (max 0 (1 - |(0 : ℚ) + 1/250 + 0 - 0 - 0| / (0 + 1/100000))) 3
        error_margin := some (pyRound |(0 : ℚ) + 1/250 + 0 - 0 - 0| 2)
        extracted_subtotal := some 0
        computed_subtotal := some (pyRound ((0 : ℚ) + 1/250) 2)
        extracted_total := some 0
        computed_total := some (pyRound ((0 : ℚ) + 1/250 + 0 - 0) 2)
        gst := some 0
        discount := some 0 } :=
    verify_calculations_of_ok (extractValues_ok_of_parts h0 rfl rfl rfl rfl)
  refine ⟨?_, ?_, ?_, by norm_num⟩
  · rw [h0]
    norm_num
  · rw [h]
    show some (pyRound ((0 : ℚ) + 1/250) 2) = some 0
    have hq : (0 : ℚ) + 1/250 = 1/250 := by norm_num
    rw [hq, pyRound_tiny]
  · rw [h]
    show some (pyRound |(0 : ℚ) + 1/250 + 0 - 0 - 0| 2) = some 0
    have hq : |(0 : ℚ) + 1/250 + 0 - 0 - 0| = 1/250 := by
      rw [abs_of_nonneg (by norm_num)]
      norm_num
    rw [hq, pyRound_tiny]

/-- C2 (amended): for every FieldSet whose four numeric fields coerce and
every line-item sequence whose row totals coerce, `verify_calculations`
returns the success record built from `computed_subtotal = sum of
row_total` (0 for the empty sequence, as the accompanying conjunct states
for number-valued items), `computed_total = computed_subtotal + gst -
discount`, `error_margin = |computed_total - extracted_total|`, `verified
= (error_margin < 1)` and `confidence = max 0 (1 - error_margin /
(extracted_total + 1e-5))` — with the reported `computed_subtotal`,
`computed_total` and `error_margin` rounded to 2 decimal places and the
reported `confidence` rounded to 3, while `verified` is decided on the
unrounded margin. -/
theorem C2_success_record :
    (∀ (fields : FieldMap) (items : List RawItem) (qs qe qg qd qt : ℚ),
      sumRowTotalsE items = .ok qs →
      coerceFieldE fields "subtotal" = .ok qe →
      coerceFieldE fields "gst_amount" = .ok qg →
      coerceFieldE fields "discount" = .ok qd →
      coerceFieldE fields "total" = .ok qt →
      verify_calculations fields items =
        { verified := decide (|qs + qg - qd - qt| < 1)
          error := none
          confidence :=
            pyRound (max 0 (1 - |qs + qg - qd - qt| / (qt + 1/100000))) 3
          error_margin := some (pyRound |qs + qg - qd - qt| 2)
          extracted_subtotal := some qe
          computed_subtotal := some (pyRound qs 2)
          extracted_total := some qt
          computed_total := some (pyRound (qs + qg - qd) 2)
          gst := some qg
          discount := some qd }) ∧
    (∀ qlist : List ℚ,
      sumRowTotalsE (qlist.map (fun q => RawItem.mk (some (.jnum q)))) =
        .ok (qlist.foldl (fun a q => a + q) 0)) := by
  constructor
  · intro fields items qs qe qg qd qt h0 h1 h2 h3 h4
    exact verify_calculations_of_ok (extractValues_ok_of_parts h0 h1 h2 h3 h4)
  · intro qlist
    exact sumRowTotals_of_nums 0 qlist

/-- C2 (witness): the spec's worked example — line items summing to 300,
`gst=54`, `discount=0`, `total=354` — yields `computed_total=354`,
`error_margin=0`, `verified=true` and `confidence=1.0`. -/
theorem C2_witness :
    verify_calculations fields354 items300 =
      { verified := true
        error := none
        confidence := 1
        error_margin := some 0
        extracted_subtotal := some 300
        computed_subtotal := some 300
        extracted_total := some 354
        computed_total := some 354
        gst := some 54
        discount := some 0 } := by
  rw [C2_success_record.1 fields354 items300 (0 + 120 + 180) 300 54 0 354
    rfl rfl rfl rfl rfl]
  have h1 : ((0 : ℚ) + 120 + 180) = 300 := by norm_num
  rw [h1]
  have h2 : |(300 : ℚ) + 54 - 0 - 354| = 0 := by norm_num
  rw [h2]
  have h3 : max (0 : ℚ) (1 - 0 / (354 + 1/100000)) = 1 := by norm_num
  rw [h3, pyRound_one, pyRound_zero]
  have h4 : ((300 : ℚ) + 54 - 0) = 354 := by norm_num
  rw [h4]
  have h5 : pyRound (300 : ℚ) 2 = 300 := by
    simpa using pyRound_intCast 300 2
  have h6 : pyRound (354 : ℚ) 2 = 354 := by
    simpa using pyRound_intCast 354 2
  rw [h5, h6]
  rfl

/-! ### C8 -/

/-- C8: if either input file of the verification driver is missing, the
document is skipped: no verification report is produced or written, and the
driver does not fail (it is a total function returning `none`). -/
theorem C8_driver_skips_missing (fs : DriverFS)
    (h : fs.fieldsFile = none ∨ fs.lineitemsFile = none) :
    process_verification fs = none := by
  obtain ⟨ff, lf⟩ := fs
  rcases h with h | h
  · cases h; cases lf <;> rfl
  · cases h; cases ff <;> rfl

/-- C8 (witness): a present line-items file alone does not produce a
report. -/
theorem C8_witness :
    process_verification ⟨none, some []⟩ = none :=
  C8_driver_skips_missing ⟨none, some []⟩ (Or.inl rfl)

/-! ### C9 -/

/-- C9: `verify_calculations` is deterministic — it is embedded as a pure
function of the FieldSet and the line-item sequence (the source reads no
global mutable state, performs no I/O and uses no randomness), so two
invocations on identical inputs produce field-for-field identical
reports. -/
theorem C9_deterministic (fields : FieldMap) (items : List RawItem) :
    verify_calculations fields items = verify_calculations fields items :=
  rfl

/-! ### C10 -/

/-- C10: the extracted `subtotal` field does not influence the verdict.
For two FieldSets that agree on every key other than `subtotal`, both of
whose `subtotal` values coerce, the two reports agree on every component —
`verified`, `confidence`, `error_margin`, `computed_subtotal`,
`computed_total`, `gst`, `discount`, and the rest — except possibly the
reported `extracted_subtotal`. -/
theorem C10_subtotal_noninterference
    (f₁ f₂ : FieldMap) (li : List RawItem) (q₁ q₂ : ℚ)
    (hagree : ∀ n, n ≠ "subtotal" → List.lookup n f₁ = List.lookup n f₂)
    (h₁ : coerceFieldE f₁ "subtotal" = .ok q₁)
    (h₂ : coerceFieldE f₂ "subtotal" = .ok q₂) :
    verify_calculations f₁ li =
      { verify_calculations f₂ li with
        extracted_subtotal := (verify_calculations f₁ li).extracted_subtotal
        } := by
  have hg : coerceFieldE f₁ "gst_amount" = coerceFieldE f₂ "gst_amount" := by
    unfold coerceFieldE; rw [hagree "gst_amount" (by decide)]
  have hd : coerceFieldE f₁ "discount" = coerceFieldE f₂ "discount" := by
    unfold coerceFieldE; rw [hagree "discount" (by decide)]
  have ht : coerceFieldE f₁ "total" = coerceFieldE f₂ "total" := by
    unfold coerceFieldE; rw [hagree "total" (by decide)]
  cases hs : sumRowTotalsE li with
  | error e =>
    have e₁ : extractValuesE f₁ li = .error e := by
      simp [extractValuesE, hs, Bind.bind, Except.bind]
    have e₂ : extractValuesE f₂ li = .error e := by
      simp [extractValuesE, hs, Bind.bind, Except.bind]
    rw [verify_calculations_of_error e₁, verify_calculations_of_error e₂]
  | ok qs =>
    cases hgv : coerceFieldE f₂ "gst_amount" with
    | error e =>
      have e₁ : extractValuesE f₁ li = .error e := by
        simp [extractValuesE, hs, h₁, hg.trans hgv, Bind.bind, Except.bind]
      have e₂ : extractValuesE f₂ li = .error e := by
        simp [extractValuesE, hs, h₂, hgv, Bind.bind, Except.bind]
      rw [verify_calculations_of_error e₁, verify_calculations_of_error e₂]
    | ok qg =>
      cases hdv : coerceFieldE f₂ "discount" with
      | error e =>
        have e₁ : extractValuesE f₁ li = .error e := by
          simp [extractValuesE, hs, h₁, hg.trans hgv, hd.trans hdv,
            Bind.bind, Except.bind]
        have e₂ : extractValuesE f₂ li = .error e := by
          simp [extractValuesE, hs, h₂, hgv, hdv, Bind.bind, Except.bind]
        rw [verify_calculations_of_error e₁, verify_calculations_of_error e₂]
      | ok qd =>
        cases htv : coerceFieldE f₂ "total" with
        | error e =>
          have e₁ : extractValuesE f₁ li = .error e := by
            simp [extractValuesE, hs, h₁, hg.trans hgv, hd.trans hdv,
              ht.trans htv, Bind.bind, Except.bind]
          have e₂ : extractValuesE f₂ li = .error e := by
            simp [extractValuesE, hs, h₂, hgv, hdv, htv, Bind.bind,
              Except.bind]
          rw [verify_calculations_of_error e₁,
            verify_calculations_of_error e₂]
        | ok qt =>
          have e₁ : extractValuesE f₁ li = .ok (qs, q₁, qg, qd, qt) :=
            extractValues_ok_of_parts hs h₁ (hg.trans hgv) (hd.trans hdv)
              (ht.trans htv)
          have e₂ : extractValuesE f₂ li = .ok (qs, q₂, qg, qd, qt) :=
            extractValues_ok_of_parts hs h₂ hgv hdv htv
          rw [verify_calculations_of_ok e₁, verify_calculations_of_ok e₂]

/-- C10 (witness): two concrete FieldSets differing only in the `subtotal`
value (10 vs 20) produce reports differing at most in
`extracted_subtotal`. -/
theorem C10_witness :
    verify_calculations (("subtotal", ⟨some (.jnum 10)⟩) ::
        fieldsNoSubtotalKey) [] =
      { verify_calculations (("subtotal", ⟨some (.jnum 20)⟩) ::
          fieldsNoSubtotalKey) [] with
        extracted_subtotal :=
          (verify_calculations (("subtotal", ⟨some (.jnum 10)⟩) ::
            fieldsNoSubtotalKey) []).extracted_subtotal } :=
  C10_subtotal_noninterference _ _ [] 10 20
    (fun n hn => by
      have hb : (n == "subtotal") = false := by
        cases hbe : n == "subtotal" with
        | true => exact absurd (by simpa using hbe) hn
        | false => rfl
      simp [List.lookup, hb])
    rfl rfl

/-! ### Helper lemmas about the line-item scan -/

lemma extractFromAux_eq_filterMap (words : List OCRWord) :
    ∀ (n i : ℕ), extractFromAux words n i =
      (List.range' i n).filterMap (candidateRow words) := by
  intro n
  induction n with
  | zero => intro i; rfl
  | succ n ih =>
    intro i
    rw [List.range'_succ]
    cases hc : candidateRow words i with
    | some item =>
      simp [extractFromAux, hc, List.filterMap_cons, ih (i + 1)]
    | none =>
      simp [extractFromAux, hc, List.filterMap_cons, ih (i + 1)]

lemma extract_eq_filterMap (words : List OCRWord) :
    extract_line_items_from_ocr words =
      (List.range words.length).filterMap (candidateRow words) := by
  rw [extract_line_items_from_ocr, extractFromAux_eq_filterMap,
    List.range_eq_range']

lemma candidateRow_none_of_ge {words : List OCRWord} {i : ℕ}
    (h : words.length ≤ i) : candidateRow words i = none := by
  rw [candidateRow, List.getElem?_eq_none h]

lemma mem_extract_of_candidateRow {words : List OCRWord} {i : ℕ}
    {item : LineItem} (hc : candidateRow words i = some item)
    (hi : i < words.length) :
    item ∈ extract_line_items_from_ocr words := by
  rw [extract_eq_filterMap]
  exact List.mem_filterMap.mpr ⟨i, List.mem_range.mpr hi, hc⟩

/-! ### C3 -/

lemma pyFloat_digit2 : pyFloat? "2" = some 2 := by
  rw [show pyFloat? "2" = some ((natVal ['2'] : ℚ) * powTen 0) from rfl,
    show natVal ['2'] = 2 from rfl]
  norm_num [powTen]

lemma pyFloat_digit3 : pyFloat? "3" = some 3 := by
  rw [show pyFloat? "3" = some ((natVal ['3'] : ℚ) * powTen 0) from rfl,
    show natVal ['3'] = 3 from rfl]
  norm_num [powTen]

lemma pyFloat_digit4 : pyFloat? "4" = some 4 := by
  rw [show pyFloat? "4" = some ((natVal ['4'] : ℚ) * powTen 0) from rfl,
    show natVal ['4'] = 4 from rfl]
  norm_num [powTen]

/-- The OCR word sequence `1 2 3 x y z w v`: its first position is a purely
numeric row-start whose window holds exactly 3 numeric tokens. -/
def wordsThreeNums : List OCRWord :=
  [⟨"1"⟩, ⟨"2"⟩, ⟨"3"⟩, ⟨"x"⟩, ⟨"y"⟩, ⟨"z"⟩, ⟨"w"⟩, ⟨"v"⟩]

/-- The OCR word sequence `1 2 3 4 x y z w`: its first position is a purely
numeric row-start whose window holds 4 numeric tokens. -/
def wordsFourNums : List OCRWord :=
  [⟨"1"⟩, ⟨"2"⟩, ⟨"3"⟩, ⟨"4"⟩, ⟨"x"⟩, ⟨"y"⟩, ⟨"z"⟩, ⟨"w"⟩]

/-- C3 (counterexample): the claim states that 3 numeric tokens in the
window suffice for a LineItem to be appended.  On the word sequence
`1 2 3 x y z w v` the row-start at position 0 has exactly 3 numeric tokens
(and each of them parses), yet the scan appends nothing: the code indexes
`numbers[3]` — a 4th numeric token — after checking only `len(numbers) >=
3`, so the candidate dies with an IndexError that the `except` swallows. -/
theorem C3_counterexample :
    pyStrIsDigit ((⟨"1"⟩ : OCRWord).text) = true ∧
    (numericTokens (contextAt wordsThreeNums 0)).length = 3 ∧
    pyFloat? (stripCommas (OCRWord.text ⟨"2"⟩)) = some 2 ∧
    pyFloat? (stripCommas (OCRWord.text ⟨"3"⟩)) = some 3 ∧
    (numericTokens (contextAt wordsThreeNums 0))[3]? = none ∧
    extract_line_items_from_ocr wordsThreeNums = [] :=
  ⟨rfl, rfl, pyFloat_digit2, pyFloat_digit3, rfl, rfl⟩

/-- C3 (amended): for every word sequence and position whose word text is
purely numeric, with the context window `words[i:i+8]` (the word itself
plus the next 7), if the window holds at least 4 tokens containing a digit
(the purely numeric row-start itself being the 1st) and the 2nd, 3rd and
4th numeric tokens parse as floats after comma stripping, then the scan
appends the LineItem whose description joins the context words at window
offsets 1 and 2, whose qty/unit_price/row_total are the parsed 2nd/3rd/4th
numeric tokens, and whose valid flag is `|qty*unit_price - row_total| <
2`.  (With exactly 3 numeric tokens the candidate is discarded, see the
counterexample.) -/
theorem C3_row_reconstruction (words : List OCRWord) (i : ℕ)
    (w n1 n2 n3 : OCRWord) (q1 q2 q3 : ℚ)
    (hw : words[i]? = some w)
    (hdig : pyStrIsDigit w.text = true)
    (hlen : 4 ≤ (numericTokens (contextAt words i)).length)
    (h1 : (numericTokens (contextAt words i))[1]? = some n1)
    (h2 : (numericTokens (contextAt words i))[2]? = some n2)
    (h3 : (numericTokens (contextAt words i))[3]? = some n3)
    (hq1 : pyFloat? (stripCommas n1.text) = some q1)
    (hq2 : pyFloat? (stripCommas n2.text) = some q2)
    (hq3 : pyFloat? (stripCommas n3.text) = some q3) :
    candidateRow words i =
      some (LineItem.mk
        (String.intercalate " "
          ((((contextAt words i).drop 1).take 2).map OCRWord.text))
        q1 q2 q3 (decide (|q2 * q1 - q3| < 2))) ∧
    LineItem.mk
        (String.intercalate " "
          ((((contextAt words i).drop 1).take 2).map OCRWord.text))
        q1 q2 q3 (decide (|q2 * q1 - q3| < 2)) ∈
      extract_line_items_from_ocr words := by
  have h30 : 3 ≤ (numericTokens (contextAt words i)).length := by omega
  have hc : candidateRow words i =
      some (LineItem.mk
        (String.intercalate " "
          ((((contextAt words i).drop 1).take 2).map OCRWord.text))
        q1 q2 q3 (decide (|q2 * q1 - q3| < 2))) := by
    rw [candidateRow, hw]
    simp [hdig, h30, h1, h2, h3, hq1, hq2, hq3]
  have hlt : i < words.length := by
    by_contra hge
    rw [List.getElem?_eq_none (by omega)] at hw
    exact Option.noConfusion hw
  exact ⟨hc, mem_extract_of_candidateRow hc hlt⟩

/-- C3 (witness): on `1 2 3 4 x y z w` the row-start at position 0 yields
the LineItem with description `2 3`, qty 2, unit_price 3, row_total 4 and
valid `false` (|3·2−4| = 2, not < 2), and that item is in the scan
output. -/
theorem C3_witness :
    candidateRow wordsFourNums 0 = some (LineItem.mk "2 3" 2 3 4 false) ∧
    LineItem.mk "2 3" 2 3 4 false ∈
      extract_line_items_from_ocr wordsFourNums := by
  have h := C3_row_reconstruction wordsFourNums 0 ⟨"1"⟩ ⟨"2"⟩ ⟨"3"⟩ ⟨"4"⟩
    2 3 4 rfl rfl (by decide) rfl rfl rfl pyFloat_digit2 pyFloat_digit3
    pyFloat_digit4
  have hdesc : String.intercalate " "
      ((((contextAt wordsFourNums 0).drop 1).take 2).map OCRWord.text) =
        "2 3" := rfl
  have hval : decide (|(3 : ℚ) * 2 - 4| < 2) = false := by
    rw [decide_eq_false_iff_not]
    rw [show |(3 : ℚ) * 2 - 4| = 2 by rw [abs_of_nonneg] <;> norm_num]
    norm_num
  rw [hdesc, hval] at h
  exact h

/-! ### C7 -/

/-- C7: line-item extraction never fails as a whole.  The scan visits every
position independently: the output is exactly the filterMap of the
per-position candidate over all indices, so a discarded candidate (too few
numeric tokens, or a failed parse — `candidateRow words i = none`) leaves
scanning from the next word untouched and the window's tokens are not
skipped (overlapping candidates are possible); the output is empty exactly
when every position's candidate is discarded, the worst case being the
empty sequence. -/
theorem C7_scan_locality :
    (∀ words : List OCRWord,
      extract_line_items_from_ocr words =
        (List.range words.length).filterMap (candidateRow words)) ∧
    (∀ words : List OCRWord,
      extract_line_items_from_ocr words = [] ↔
        ∀ i, candidateRow words i = none) := by
  refine ⟨extract_eq_filterMap, fun words => ⟨?_, ?_⟩⟩
  · intro h i
    by_cases hi : i < words.length
    · rw [extract_eq_filterMap] at h
      exact List.filterMap_eq_nil_iff.mp h i (List.mem_range.mpr hi)
    · exact candidateRow_none_of_ge (by omega)
  · intro h
    rw [extract_eq_filterMap]
    exact List.filterMap_eq_nil_iff.mpr (fun i _ => h i)

/-- C7 (witness): on the single non-numeric word `x` every candidate is
discarded and the output is the empty sequence. -/
theorem C7_witness :
    extract_line_items_from_ocr [(⟨"x"⟩ : OCRWord)] = [] :=
  (C7_scan_locality.2 [⟨"x"⟩]).mpr (fun i => by cases i <;> rfl)

/-! ### Helper lemmas about field extraction -/

lemma extract_field_eq_findSome (patterns : List REPattern) (text : String) :
    extract_field patterns text =
      match patterns.findSome? (fun p => reSearch p text) with
      | some g =>
        { value := some (pyStrip g), confidence := 95/100, present := true }
      | none => { value := none, confidence := 0, present := false } := by
  induction patterns with
  | nil => rfl
  | cons p rest ih =>
    cases h : reSearch p text with
    | some g => simp [extract_field, List.findSome?_cons, h]
    | none => simpa [extract_field, List.findSome?_cons, h] using ih

lemma extract_field_invariant (patterns : List REPattern) (text : String) :
    ((extract_field patterns text).present = true ↔
      (extract_field patterns text).value ≠ none) ∧
    ((extract_field patterns text).present = false →
      (extract_field patterns text).confidence = 0) := by
  induction patterns with
  | nil => simp [extract_field]
  | cons p rest ih =>
    cases h : reSearch p text with
    | some g => simp [extract_field, h]
    | none => simpa [extract_field, h] using ih

lemma mkEntField_invariant (v : Option String) (c : ℚ)
    (hv : ∀ s, v = some s → s ≠ "") :
    ((mkEntField v c).present = true ↔ (mkEntField v c).value ≠ none) ∧
    ((mkEntField v c).present = false → (mkEntField v c).confidence = 0) := by
  cases v with
  | none => simp [mkEntField, pyTruthyStr]
  | some s =>
    have hs : s ≠ "" := hv s rfl
    simp [mkEntField, pyTruthyStr, hs]

lemma mem_filterTexts_ne_empty {spans : List EntSpan} {p : EntSpan → Bool}
    (hne : ∀ s, s ∈ spans → s.text ≠ "") :
    ∀ t, t ∈ (spans.filter p).map EntSpan.text → t ≠ "" := by
  intro t ht
  obtain ⟨e, he, rfl⟩ := List.mem_map.mp ht
  exact hne e (List.mem_of_mem_filter he)

/-! ### C5 -/

/-- C5: for every regex header field, patterns are tried in list order
(case-insensitivity lives inside the matcher `reSearch`); the first
pattern that matches determines the result — capture group 1 stripped of
surrounding whitespace, confidence 0.95, present — and later patterns are
not consulted (`List.findSome?` semantics); when no pattern matches the
field is `{value: null, confidence: 0, present: false}`.  In particular,
on `Invoice No: INV-2023-001` the `invoice_number` field is
`{value: "INV-2023-001", confidence: 0.95, present: true}`. -/
theorem C5_first_match_wins :
    (∀ (patterns : List REPattern) (text : String),
      extract_field patterns text =
        match patterns.findSome? (fun p => reSearch p text) with
        | some g =>
          { value := some (pyStrip g), confidence := 95/100, present := true }
        | none => { value := none, confidence := 0, present := false }) ∧
    (extract_fields_from_text "Invoice No: INV-2023-001").invoice_number =
      { value := some "INV-2023-001", confidence := 95/100,
        present := true } := by
  exact ⟨extract_field_eq_findSome, rfl⟩

/-! ### C4 -/

/-- C4 (counterexample): the claim states that every FieldValue of the
produced FieldSet satisfies `present == (value is not None)`.  When the
EntityTagger returns a single organisation span whose text is the empty
string, `bill_to` gets `value = ""` (not null) yet `present = false`,
because the code computes `present` by Python truthiness (`bool("")` is
falsy), not by a None test. -/
theorem C4_counterexample :
    (extract_bill_ship_to [⟨"", "ORG"⟩]).bill_to ∈
      allFieldValues "" [⟨"", "ORG"⟩] ∧
    (extract_bill_ship_to [⟨"", "ORG"⟩]).bill_to.value = some "" ∧
    (extract_bill_ship_to [⟨"", "ORG"⟩]).bill_to.present = false := by
  refine ⟨?_, rfl, rfl⟩
  simp [allFieldValues]

/-- C4 (amended): for every input text and every tagger output whose span
texts are all non-empty (true of spaCy entity spans), every FieldValue of
the produced FieldSet — the four regex fields and the four entity fields —
satisfies `present = (value is not null)`, and `present = false` implies
`confidence = 0`.  (An empty-string span text breaks the first half, see
the counterexample; the confidence half holds unconditionally on the
fields built here.) -/
theorem C4_fieldvalue_invariant (text : String) (spans : List EntSpan)
    (hne : ∀ s, s ∈ spans → s.text ≠ "") :
    ∀ fv ∈ allFieldValues text spans,
      ((fv.present = true ↔ fv.value ≠ none) ∧
       (fv.present = false → fv.confidence = 0)) := by
  have horg : ∀ s, (orgTexts spans).head? = some s → s ≠ "" :=
    fun s hs => mem_filterTexts_ne_empty hne s (List.mem_of_mem_head? hs)
  have horg1 : ∀ s, (orgTexts spans)[1]? = some s → s ≠ "" :=
    fun s hs => mem_filterTexts_ne_empty hne s (List.getElem?_mem hs)
  have hloc : ∀ s, (locTexts spans).head? = some s → s ≠ "" :=
    fun s hs => mem_filterTexts_ne_empty hne s (List.mem_of_mem_head? hs)
  have hloc1 : ∀ s, (locTexts spans)[1]? = some s → s ≠ "" :=
    fun s hs => mem_filterTexts_ne_empty hne s (List.getElem?_mem hs)
  intro fv hfv
  simp only [allFieldValues, extract_fields_from_text, extract_bill_ship_to,
    List.mem_cons, List.not_mem_nil, or_false] at hfv
  rcases hfv with h | h | h | h | h | h | h | h <;> subst h
  · exact extract_field_invariant _ _
  · exact extract_field_invariant _ _
  · exact extract_field_invariant _ _
  · exact extract_field_invariant _ _
  · exact mkEntField_invariant _ _ horg
  · exact mkEntField_invariant _ _ horg1
  · exact mkEntField_invariant _ _ hloc
  · exact mkEntField_invariant _ _ hloc1

/-- C4 (witness): on a single non-empty organisation span, `bill_to`
satisfies the invariant. -/
theorem C4_witness :
    ((extract_bill_ship_to [⟨"Acme", "ORG"⟩]).bill_to.present = true ↔
      (extract_bill_ship_to [⟨"Acme", "ORG"⟩]).bill_to.value ≠ none) ∧
    ((extract_bill_ship_to [⟨"Acme", "ORG"⟩]).bill_to.present = false →
      (extract_bill_ship_to [⟨"Acme", "ORG"⟩]).bill_to.confidence = 0) :=
  C4_fieldvalue_invariant "" [⟨"Acme", "ORG"⟩]
    (by intro s hs; fin_cases hs; simp) _ (by simp [allFieldValues])

/-! ### C6 -/

/-- C6 (counterexample): the claim states that `bill_to_address` equals the
first location span with confidence 0.7.  When the EntityTagger returns a
single location span whose text is empty, the first location span exists
(it is `""`) but the code reports confidence 0.0 and `present = false`
(Python truthiness), not confidence 0.7. -/
theorem C6_counterexample :
    locTexts [⟨"", "GPE"⟩] = [""] ∧
    (extract_bill_ship_to [⟨"", "GPE"⟩]).bill_to_address =
      { value := some "", confidence := 0, present := false } :=
  ⟨rfl, rfl⟩

/-- C6 (amended): for every tagger span sequence whose span texts are
non-empty, `bill_to` is the first organisation/person span with confidence
0.8 or absent when none exists; `ship_to` the second such span (0.8) or
absent; `bill_to_address` / `ship_to_address` the first/second location
span (0.7) or absent — spans taken in order of appearance with no
deduplication (the org/loc lists are order-preserving filters). -/
theorem C6_positional_selection (spans : List EntSpan)
    (hne : ∀ s, s ∈ spans → s.text ≠ "") :
    ((extract_bill_ship_to spans).bill_to =
      match (orgTexts spans).head? with
      | some t => { value := some t, confidence := 8/10, present := true }
      | none => { value := none, confidence := 0, present := false }) ∧
    ((extract_bill_ship_to spans).ship_to =
      match (orgTexts spans)[1]? with
      | some t => { value := some t, confidence := 8/10, present := true }
      | none => { value := none, confidence := 0, present := false }) ∧
    ((extract_bill_ship_to spans).bill_to_address =
      match (locTexts spans).head? with
      | some t => { value := some t, confidence := 7/10, present := true }
      | none => { value := none, confidence := 0, present := false }) ∧
    ((extract_bill_ship_to spans).ship_to_address =
      match (locTexts spans)[1]? with
      | some t => { value := some t, confidence := 7/10, present := true }
      | none => { value := none, confidence := 0, present := false }) := by
  refine ⟨?_, ?_, ?_, ?_⟩
  · cases h : (orgTexts spans).head? with
    | none => simp [extract_bill_ship_to, h, mkEntField, pyTruthyStr]
    | some t =>
      have ht : t ≠ "" :=
        mem_filterTexts_ne_empty hne t (List.mem_of_mem_head? h)
      simp [extract_bill_ship_to, h, mkEntField, pyTruthyStr, ht]
  · cases h : (orgTexts spans)[1]? with
    | none => simp [extract_bill_ship_to, h, mkEntField, pyTruthyStr]
    | some t =>
      have ht : t ≠ "" := mem_filterTexts_ne_empty hne t (List.getElem?_mem h)
      simp [extract_bill_ship_to, h, mkEntField, pyTruthyStr, ht]
  · cases h : (locTexts spans).head? with
    | none => simp [extract_bill_ship_to, h, mkEntField, pyTruthyStr]
    | some t =>
      have ht : t ≠ "" :=
        mem_filterTexts_ne_empty hne t (List.mem_of_mem_head? h)
      simp [extract_bill_ship_to, h, mkEntField, pyTruthyStr, ht]
  · cases h : (locTexts spans)[1]? with
    | none => simp [extract_bill_ship_to, h, mkEntField, pyTruthyStr]
    | some t =>
      have ht : t ≠ "" := mem_filterTexts_ne_empty hne t (List.getElem?_mem h)
      simp [extract_bill_ship_to, h, mkEntField, pyTruthyStr, ht]

/-- The tagger output used by the C6 witness: two organisation-class spans
and one location span, all non-empty. -/
def entSpansW : List EntSpan :=
  [⟨"Acme", "ORG"⟩, ⟨"Bob", "PERSON"⟩, ⟨"Pune", "GPE"⟩]

/-- C6 (witness): first org `Acme` becomes bill_to (0.8), second org-class
span `Bob` becomes ship_to (0.8), first location `Pune` becomes
bill_to_address (0.7), and ship_to_address is absent. -/
theorem C6_witness :
    (extract_bill_ship_to entSpansW).bill_to =
      { value := some "Acme", confidence := 8/10, present := true } ∧
    (extract_bill_ship_to entSpansW).ship_to =
      { value := some "Bob", confidence := 8/10, present := true } ∧
    (extract_bill_ship_to entSpansW).bill_to_address =
      { value := some "Pune", confidence := 7/10, present := true } ∧
    (extract_bill_ship_to entSpansW).ship_to_address =
      { value := none, confidence := 0, present := false } :=
  C6_positional_selection entSpansW (by intro s hs; fin_cases hs <;> simp)

end InvoiceExtraction
